import Mathlib

/-!
Shallow embedding of the orders microservice core
(`internal/api/server/server.go`, `internal/event` worker, `cmd/orders/main.go`).

Modelling choices:
* `time.Time` values and UUIDs are modelled as `Nat` (only equality of these
  values matters to the code under verification).
* The handlers are embedded as pure functions of the outcomes of their storage
  calls (`ScanResult` for `QueryRowContext`+`Scan`, `ExecResult` for
  `ExecContext`), mirroring the Go control flow line by line.
* A second layer (`createOrderDB`, `getOrderByIdDB`) refines the storage
  outcomes against a database modelled as a list of rows: the duplicate-check
  `SELECT ... LIMIT 1` is `List.find?` over the content predicate, a successful
  `INSERT` appends the row.  Fault parameters inject storage errors.
* The event worker goroutine's `for { select { ... } }` loop is a labelled
  step relation `WorkerStep`: the `select` between a ready queue and a done
  context is nondeterministic, exactly as in Go.
-/

namespace Orders

/-- A persisted order row: `id, customer_name, item, created_at`. -/
structure OrderRow where
  id : Nat
  customerName : String
  item : String
  createdAt : Nat
  deriving DecidableEq, Repr

/-- `event.OrderCreated`: the payload submitted to the event queue. -/
structure OrderCreated where
  order : OrderRow
  deriving DecidableEq, Repr

/-- JSON bodies produced by the handlers. -/
inductive Body where
  /-- A body of the form `gin.H\x7b"error": msg\x7d`. -/
  | jsonError (msg : String)
  /-- A body of the form `gin.H\x7b"error": err, "msg": msg\x7d`: carries the
  raw storage error value alongside the message. -/
  | jsonErrorWithDetail (detail : String) (msg : String)
  /-- An `api.OrderResponse` body. -/
  | jsonOrder (o : OrderRow)
  /-- A body of the form `gin.H\x7b"status": s\x7d`. -/
  | jsonStatus (s : String)
  deriving DecidableEq, Repr

/-- An HTTP response: status code plus JSON body. -/
structure HttpResponse where
  status : Nat
  body : Body
  deriving DecidableEq, Repr

/-- Outcome of `row.Scan` after `QueryRowContext`: a row, `sql.ErrNoRows`,
or some other database error. -/
inductive ScanResult where
  | found (row : OrderRow)
  | noRows
  | dbError (e : String)
  deriving DecidableEq, Repr

/-- Outcome of `ExecContext` for the `INSERT`. -/
inductive ExecResult where
  | ok
  | execError (e : String)
  deriving DecidableEq, Repr

/-- Outcome of `c.ShouldBindJSON(&req)`. -/
inductive BindResult where
  | bindOk (customerName item : String)
  | bindErr (e : String)
  deriving DecidableEq, Repr

/-- Everything observable about one `CreateOrder` handler invocation:
the HTTP response, the row inserted by a successful `INSERT` (if any), and
the `OrderCreated` events submitted to the event queue. -/
structure CreateOrderResult where
  resp : HttpResponse
  newRow : Option OrderRow
  events : List OrderCreated
  deriving DecidableEq, Repr

/-- `Server.CreateOrder`, embedded over the outcomes of its collaborator
calls, following the Go control flow:
1. bind failure → 400 `"Invalid input"`, nothing else happens;
2. duplicate-check scan finds a row → 200 with that row, no insert, no event;
3. duplicate-check scan fails with a non-`ErrNoRows` error → 500
   `"Internal server error"`;
4. scan returned `ErrNoRows`: run the `INSERT`; on failure → 500 with body
   `\x7b"error": err, "msg": "Failed to create order"\x7d`; on success → 201
   with the fresh row, and one `OrderCreated` event is submitted. -/
def createOrder (bind : BindResult) (createdAt newId : Nat)
    (queryOutcome : ScanResult) (insertOutcome : ExecResult) : CreateOrderResult :=
  match bind with
  | .bindErr _ =>
      { resp := ⟨400, .jsonError "Invalid input"⟩, newRow := none, events := [] }
  | .bindOk customerName item =>
      match queryOutcome with
      | .found existingOrder =>
          { resp := ⟨200, .jsonOrder existingOrder⟩, newRow := none, events := [] }
      | .dbError _ =>
          { resp := ⟨500, .jsonError "Internal server error"⟩, newRow := none, events := [] }
      | .noRows =>
          match insertOutcome with
          | .execError e =>
              { resp := ⟨500, .jsonErrorWithDetail e "Failed to create order"⟩,
                newRow := none, events := [] }
          | .ok =>
              let row : OrderRow := ⟨newId, customerName, item, createdAt⟩
              { resp := ⟨201, .jsonOrder row⟩, newRow := some row,
                events := [⟨row⟩] }

/-- The `WHERE customer_name=$1 AND item=$2 AND created_at=$3` predicate of
the duplicate-check query. -/
def matchesContent (customerName item : String) (createdAt : Nat)
    (r : OrderRow) : Bool :=
  r.customerName == customerName && r.item == item && r.createdAt == createdAt

/-- The duplicate-check `SELECT ... LIMIT 1` against a healthy database:
the first row matching `(customerName, item, createdAt)`, else `ErrNoRows`. -/
def dbQueryDuplicate (db : List OrderRow) (customerName item : String)
    (createdAt : Nat) : ScanResult :=
  match db.find? (matchesContent customerName item createdAt) with
  | some r => .found r
  | none => .noRows

/-- The `SELECT ... WHERE id = $1` of `GetOrderById` against a healthy
database. -/
def dbQueryById (db : List OrderRow) (id : Nat) : ScanResult :=
  match db.find? (fun r => r.id == id) with
  | some r => .found r
  | none => .noRows

/-- Applies a handler invocation's insert (if any) to the database: a
successful `INSERT` appends the new row, every other path leaves the table
unchanged. -/
def applyNewRow (db : List OrderRow) (r : CreateOrderResult) : List OrderRow :=
  match r.newRow with
  | some row => db ++ [row]
  | none => db

/-- `Server.CreateOrder` refined against the list-modelled database, for a
request that passed JSON binding.  `queryFault` / `insertFault` inject
storage failures (`none` = the storage layer behaves). Returns the handler
observation together with the database after the call. -/
def createOrderDB (db : List OrderRow) (customerName item : String)
    (createdAt newId : Nat) (queryFault insertFault : Option String) :
    CreateOrderResult × List OrderRow :=
  let queryOutcome := match queryFault with
    | some e => ScanResult.dbError e
    | none => dbQueryDuplicate db customerName item createdAt
  let insertOutcome := match insertFault with
    | some e => ExecResult.execError e
    | none => ExecResult.ok
  let r := createOrder (.bindOk customerName item) createdAt newId
    queryOutcome insertOutcome
  (r, applyNewRow db r)

/-- `Server.GetOrderById`, embedded over the outcome of its single scan:
`ErrNoRows` → 404 `"Order not found"`, any other error → 500
`"Failed to fetch order"`, success → 200 with the row. -/
def getOrderById (scan : ScanResult) : HttpResponse :=
  match scan with
  | .noRows => ⟨404, .jsonError "Order not found"⟩
  | .dbError _ => ⟨500, .jsonError "Failed to fetch order"⟩
  | .found o => ⟨200, .jsonOrder o⟩

/-- `Server.GetOrderById` refined against the list-modelled database.
Returns the response, the database after the call, and the events submitted
to the queue (the handler performs no `Exec` and no channel send, so the
database is returned untouched and the event list is empty). -/
def getOrderByIdDB (db : List OrderRow) (id : Nat)
    (queryFault : Option String) :
    HttpResponse × List OrderRow × List OrderCreated :=
  let scan := match queryFault with
    | some e => ScanResult.dbError e
    | none => dbQueryById db id
  (getOrderById scan, db, [])

/-- `Server.HealthCheck`: `c.JSON(200, gin.H\x7b"status": "ok"\x7d)`.  The
handler reads neither `s.db` nor `s.eventQueue`; both are returned untouched. -/
def healthCheck (db : List OrderRow) (queue : List OrderCreated) :
    HttpResponse × List OrderRow × List OrderCreated :=
  (⟨200, .jsonStatus "ok"⟩, db, queue)

/-- State of the event worker goroutine: the pending queue contents, whether
the context has been cancelled, and whether the `for` loop is still running. -/
structure WorkerState where
  queue : List OrderCreated
  cancelled : Bool
  running : Bool
  deriving DecidableEq, Repr

/-- One iteration of `StartEventWorker`'s `for \x7b select \x7b ... \x7d \x7d`
loop, labelled with the event processed (if any).  `process` fires when the
queue case of the `select` is chosen (available whenever an event is queued,
whether or not the context is done); `stop` fires when the `ctx.Done()` case
is chosen (available exactly when the context is cancelled) and returns from
the goroutine.  When both cases are ready, Go's `select` chooses
nondeterministically. -/
inductive WorkerStep : WorkerState → WorkerState → Option OrderCreated → Prop
  | process (e : OrderCreated) (rest : List OrderCreated) (c : Bool) :
      WorkerStep ⟨e :: rest, c, true⟩ ⟨rest, c, true⟩ (some e)
  | stop (q : List OrderCreated) :
      WorkerStep ⟨q, true, true⟩ ⟨q, true, false⟩ none

/-- A finite execution of the worker loop, collecting the labels of its
steps. -/
inductive WorkerTrace : WorkerState → List (Option OrderCreated) → WorkerState → Prop
  | refl (s : WorkerState) : WorkerTrace s [] s
  | step (s s1 s2 : WorkerState) (o : Option OrderCreated)
      (outs : List (Option OrderCreated)) :
      WorkerStep s s1 o → WorkerTrace s1 outs s2 → WorkerTrace s (o :: outs) s2

/-- A fixed concrete row used by concrete instantiations. -/
def sampleOrder : OrderRow := ⟨7, "John Doe", "Book", 5⟩

theorem dbQueryDuplicate_eq_noRows (db : List OrderRow) (c i : String) (t : Nat)
    (h : dbQueryDuplicate db c i t = ScanResult.noRows) :
    db.find? (matchesContent c i t) = none := by
  unfold dbQueryDuplicate at h
  cases hf : db.find? (matchesContent c i t) with
  | none => rfl
  | some r => rw [hf] at h; exact ScanResult.noConfusion h

theorem dbQueryDuplicate_eq_found (db : List OrderRow) (c i : String) (t : Nat)
    (r : OrderRow) (h : dbQueryDuplicate db c i t = ScanResult.found r) :
    db.find? (matchesContent c i t) = some r := by
  unfold dbQueryDuplicate at h
  cases hf : db.find? (matchesContent c i t) with
  | none => rw [hf] at h; exact ScanResult.noConfusion h
  | some s =>
      rw [hf] at h
      cases h
      rfl

theorem dbQueryById_eq_noRows (db : List OrderRow) (id : Nat)
    (h : dbQueryById db id = ScanResult.noRows) :
    db.find? (fun r => r.id == id) = none := by
  unfold dbQueryById at h
  cases hf : db.find? (fun r => r.id == id) with
  | none => rfl
  | some r => rw [hf] at h; exact ScanResult.noConfusion h

theorem matchesContent_self (c i : String) (t : Nat) (id : Nat) :
    matchesContent c i t ⟨id, c, i, t⟩ = true := by
  simp [matchesContent]

/-- C9: HealthCheck always returns HTTP 200 with body `\x7b"status":"ok"\x7d`;
its response is independent of the database and queue state, and it leaves
both untouched. -/
theorem healthCheck_always_ok (db db2 : List OrderRow)
    (q q2 : List OrderCreated) :
    (healthCheck db q).1 = ⟨200, Body.jsonStatus "ok"⟩ ∧
    (healthCheck db q).1 = (healthCheck db2 q2).1 ∧
    (healthCheck db q).2.1 = db ∧ (healthCheck db q).2.2 = q :=
  ⟨rfl, rfl, rfl, rfl⟩

/-- C10: when JSON binding fails, CreateOrder returns HTTP 400 with body
`\x7b"error":"Invalid input"\x7d`; the result is independent of the storage
outcomes (no query or insert influences it), no row is inserted (so the
database is unchanged), and no event is submitted. -/
theorem createOrder_bindErr_no_side_effects (e : String) (t newId : Nat)
    (q q2 : ScanResult) (ins ins2 : ExecResult) (db : List OrderRow) :
    createOrder (BindResult.bindErr e) t newId q ins
      = createOrder (BindResult.bindErr e) t newId q2 ins2 ∧
    (createOrder (BindResult.bindErr e) t newId q ins).resp
      = ⟨400, Body.jsonError "Invalid input"⟩ ∧
    (createOrder (BindResult.bindErr e) t newId q ins).newRow = none ∧
    (createOrder (BindResult.bindErr e) t newId q ins).events = [] ∧
    applyNewRow db (createOrder (BindResult.bindErr e) t newId q ins) = db :=
  ⟨rfl, rfl, rfl, rfl, rfl⟩

/-- C3: an OrderCreated event is submitted exactly on the successful-insert
path: one event carrying the freshly created order when binding succeeded,
the duplicate check reported no rows, and the insert succeeded; no event in
every other case (duplicate found, query error, insert error, bind error). -/
theorem createOrder_events_iff_insert_success (bind : BindResult)
    (t newId : Nat) (q : ScanResult) (ins : ExecResult) :
    (createOrder bind t newId q ins).events =
      match bind, q, ins with
      | BindResult.bindOk c i, ScanResult.noRows, ExecResult.ok =>
          [⟨⟨newId, c, i, t⟩⟩]
      | _, _, _ => [] := by
  cases bind <;> cases q <;> cases ins <;> rfl

/-- C2 (code bug): when the INSERT fails, CreateOrder answers 500 with body
`\x7b"error": err, "msg": "Failed to create order"\x7d` — the raw storage
error is embedded in the response, and the body varies with the storage
error text, unlike the generic query-error path. -/
theorem createOrder_insert_failure_echoes_error :
    (createOrder (BindResult.bindOk "John Doe" "Book") 5 7 ScanResult.noRows
        (ExecResult.execError "db error")).resp
      = ⟨500, Body.jsonErrorWithDetail "db error" "Failed to create order"⟩ ∧
    (createOrder (BindResult.bindOk "John Doe" "Book") 5 7 ScanResult.noRows
        (ExecResult.execError "connection refused")).resp.body
      ≠ (createOrder (BindResult.bindOk "John Doe" "Book") 5 7 ScanResult.noRows
        (ExecResult.execError "db error")).resp.body :=
  ⟨rfl, by decide⟩

/-- Termination measure of the worker loop: pending events plus one for the
final `return` step. -/
def workerMeasure (s : WorkerState) : Nat :=
  s.queue.length + (if s.running then 1 else 0)

theorem workerStep_measure_lt (s s1 : WorkerState) (o : Option OrderCreated)
    (h : WorkerStep s s1 o) : workerMeasure s1 < workerMeasure s := by
  cases h with
  | process e rest c => simp [workerMeasure]
  | stop q => simp [workerMeasure]

theorem workerTrace_length_le (s : WorkerState)
    (outs : List (Option OrderCreated)) (s2 : WorkerState)
    (h : WorkerTrace s outs s2) :
    outs.length + workerMeasure s2 ≤ workerMeasure s := by
  induction h with
  | refl s => simp
  | step s s1 s2 o outs hstep htrace ih =>
      have := workerStep_measure_lt s s1 o hstep
      simp only [List.length_cons]
      omega

theorem workerStep_not_running (s s2 : WorkerState) (o : Option OrderCreated)
    (h : s.running = false) : ¬ WorkerStep s s2 o := by
  intro hstep
  cases hstep <;> simp at h

/-- C5 (amended): once the context is cancelled, the worker loop's exit
transition is enabled whenever the loop is still running; a stopped loop
takes no step at all (so no event, queued or later enqueued, is ever
processed after exit); and every execution of the loop — the consumer alone,
with no further enqueues — takes at most queue-length + 1 steps, so the loop
terminates within a bound.  (The loop may still process queued events before
exiting: see the counterexample.) -/
theorem worker_shutdown (s : WorkerState) (h : s.cancelled = true) :
    (s.running = true → WorkerStep s ⟨s.queue, true, false⟩ none) ∧
    (s.running = false → ∀ s2 o, ¬ WorkerStep s s2 o) ∧
    (∀ outs s2, WorkerTrace s outs s2 → outs.length ≤ s.queue.length + 1) := by
  obtain ⟨q, c, r⟩ := s
  have hc : c = true := h
  subst hc
  refine ⟨?_, ?_, ?_⟩
  · intro hr
    have hr2 : r = true := hr
    subst hr2
    exact WorkerStep.stop q
  · intro hr s2 o
    exact workerStep_not_running _ s2 o hr
  · intro outs s2 htrace
    have hlen := workerTrace_length_le _ outs s2 htrace
    have hm : workerMeasure ⟨q, true, r⟩ ≤ q.length + 1 := by
      cases r <;> simp [workerMeasure]
    show outs.length ≤ q.length + 1
    omega

/-- C5 (counterexample): a complete execution of the worker loop in which
the context is already cancelled yet the event still sitting in the queue is
dequeued and processed (the `some` label) before the loop exits: Go's
`select` between a ready queue case and a done context is nondeterministic,
so after cancellation the loop neither necessarily stops dequeuing nor
necessarily discards the queued events. -/
theorem worker_cancelled_processes_queued_event :
    WorkerTrace ⟨[⟨sampleOrder⟩], true, true⟩
      [some ⟨sampleOrder⟩, none] ⟨[], true, false⟩ :=
  WorkerTrace.step _ _ _ _ _ (WorkerStep.process ⟨sampleOrder⟩ [] true)
    (WorkerTrace.step _ _ _ _ _ (WorkerStep.stop [])
      (WorkerTrace.refl _))

/-- Witness for `worker_shutdown` at the concrete state with one queued
event, cancelled and running. -/
theorem worker_shutdown_witness :
    (WorkerState.mk [⟨sampleOrder⟩] true true).cancelled = true ∧
    (((WorkerState.mk [⟨sampleOrder⟩] true true).running = true →
        WorkerStep (WorkerState.mk [⟨sampleOrder⟩] true true)
          ⟨(WorkerState.mk [⟨sampleOrder⟩] true true).queue, true, false⟩ none) ∧
      ((WorkerState.mk [⟨sampleOrder⟩] true true).running = false →
        ∀ s2 o, ¬ WorkerStep (WorkerState.mk [⟨sampleOrder⟩] true true) s2 o) ∧
      (∀ outs s2,
        WorkerTrace (WorkerState.mk [⟨sampleOrder⟩] true true) outs s2 →
        outs.length ≤ (WorkerState.mk [⟨sampleOrder⟩] true true).queue.length + 1)) :=
  ⟨rfl, worker_shutdown (WorkerState.mk [⟨sampleOrder⟩] true true) rfl⟩

/-- C1: if the duplicate check finds no row for `(c, i, t)`, a first call
inserts and answers 201 with id `id1`; a second call whose duplicate check
runs after that insert, with the same computed `createdAt`, is answered 200
from the existing row — both responses reference the same id `id1`, and the
second call inserts nothing. -/
theorem createOrder_idempotent_after_insert (db : List OrderRow)
    (c i : String) (t id1 id2 : Nat)
    (h : dbQueryDuplicate db c i t = ScanResult.noRows) :
    (createOrderDB db c i t id1 none none).1.resp
      = ⟨201, Body.jsonOrder ⟨id1, c, i, t⟩⟩ ∧
    (createOrderDB ((createOrderDB db c i t id1 none none).2) c i t id2
        none none).1.resp
      = ⟨200, Body.jsonOrder ⟨id1, c, i, t⟩⟩ ∧
    (createOrderDB ((createOrderDB db c i t id1 none none).2) c i t id2
        none none).2
      = (createOrderDB db c i t id1 none none).2 := by
  have hf := dbQueryDuplicate_eq_noRows db c i t h
  have hdb1 : (createOrderDB db c i t id1 none none).2
      = db ++ [⟨id1, c, i, t⟩] := by
    simp [createOrderDB, h, createOrder, applyNewRow]
  have hdup2 : dbQueryDuplicate (db ++ [⟨id1, c, i, t⟩]) c i t
      = ScanResult.found ⟨id1, c, i, t⟩ := by
    unfold dbQueryDuplicate
    rw [List.find?_append, hf]
    simp [matchesContent]
  refine ⟨?_, ?_, ?_⟩
  · simp [createOrderDB, h, createOrder]
  · rw [hdb1]
    simp [createOrderDB, hdup2, createOrder]
  · rw [hdb1]
    simp [createOrderDB, hdup2, createOrder, applyNewRow]

/-- Witness for `createOrder_idempotent_after_insert` on the empty database
with c = "John Doe", i = "Book", t = 5, id1 = 7, id2 = 9. -/
theorem createOrder_idempotent_witness :
    dbQueryDuplicate [] "John Doe" "Book" 5 = ScanResult.noRows ∧
    ((createOrderDB [] "John Doe" "Book" 5 7 none none).1.resp
      = ⟨201, Body.jsonOrder ⟨7, "John Doe", "Book", 5⟩⟩ ∧
    (createOrderDB ((createOrderDB [] "John Doe" "Book" 5 7 none none).2)
        "John Doe" "Book" 5 9 none none).1.resp
      = ⟨200, Body.jsonOrder ⟨7, "John Doe", "Book", 5⟩⟩ ∧
    (createOrderDB ((createOrderDB [] "John Doe" "Book" 5 7 none none).2)
        "John Doe" "Book" 5 9 none none).2
      = (createOrderDB [] "John Doe" "Book" 5 7 none none).2) :=
  ⟨rfl, createOrder_idempotent_after_insert [] "John Doe" "Book" 5 7 9 rfl⟩

/-- C4: when the duplicate check finds a row `r` matching
`(customerName, item, createdAt)`, CreateOrder answers 200 with exactly that
pre-existing row (so the returned id is the pre-existing row's id), performs
no insert, submits no event, and leaves the database unchanged; `r` is a
stored row whose fields match the request. -/
theorem createOrder_duplicate_returns_existing (db : List OrderRow)
    (c i : String) (t newId : Nat) (insertFault : Option String) (r : OrderRow)
    (h : dbQueryDuplicate db c i t = ScanResult.found r) :
    (createOrderDB db c i t newId none insertFault).1.resp
      = ⟨200, Body.jsonOrder r⟩ ∧
    (createOrderDB db c i t newId none insertFault).1.newRow = none ∧
    (createOrderDB db c i t newId none insertFault).1.events = [] ∧
    (createOrderDB db c i t newId none insertFault).2 = db ∧
    r ∈ db ∧ r.customerName = c ∧ r.item = i ∧ r.createdAt = t := by
  have hf := dbQueryDuplicate_eq_found db c i t r h
  have hmem := List.mem_of_find?_eq_some hf
  have hp := List.find?_some hf
  simp only [matchesContent, Bool.and_eq_true, beq_iff_eq] at hp
  refine ⟨?_, ?_, ?_, ?_, hmem, hp.1.1, hp.1.2, hp.2⟩ <;>
    simp [createOrderDB, h, createOrder, applyNewRow]

/-- Witness for `createOrder_duplicate_returns_existing` on the one-row
database holding `sampleOrder`. -/
theorem createOrder_duplicate_witness :
    dbQueryDuplicate [sampleOrder] "John Doe" "Book" 5
      = ScanResult.found sampleOrder ∧
    ((createOrderDB [sampleOrder] "John Doe" "Book" 5 9 none none).1.resp
      = ⟨200, Body.jsonOrder sampleOrder⟩ ∧
    (createOrderDB [sampleOrder] "John Doe" "Book" 5 9 none none).1.newRow
      = none ∧
    (createOrderDB [sampleOrder] "John Doe" "Book" 5 9 none none).1.events
      = [] ∧
    (createOrderDB [sampleOrder] "John Doe" "Book" 5 9 none none).2
      = [sampleOrder] ∧
    sampleOrder ∈ [sampleOrder] ∧ sampleOrder.customerName = "John Doe" ∧
    sampleOrder.item = "Book" ∧ sampleOrder.createdAt = 5) :=
  ⟨by decide,
    createOrder_duplicate_returns_existing [sampleOrder] "John Doe" "Book" 5 9
      none sampleOrder (by decide)⟩

/-- C6: GetOrderById mutates neither the database nor the event queue; it
answers 404 "Order not found" exactly when the storage layer reports the
distinguished no-rows condition, 500 "Failed to fetch order" on any other
storage failure, and on success 200 with the full stored order (a row of the
database whose id is the requested one). -/
theorem getOrderById_characterisation (db : List OrderRow) (id : Nat)
    (qf : Option String) :
    (getOrderByIdDB db id qf).2.1 = db ∧
    (getOrderByIdDB db id qf).2.2 = [] ∧
    ((getOrderByIdDB db id qf).1 = ⟨404, Body.jsonError "Order not found"⟩ ↔
      qf = none ∧ dbQueryById db id = ScanResult.noRows) ∧
    (∀ e, qf = some e →
      (getOrderByIdDB db id qf).1 = ⟨500, Body.jsonError "Failed to fetch order"⟩) ∧
    (∀ o, qf = none → dbQueryById db id = ScanResult.found o →
      (getOrderByIdDB db id qf).1 = ⟨200, Body.jsonOrder o⟩ ∧
        o ∈ db ∧ o.id = id) := by
  cases qf with
  | some e =>
      refine ⟨rfl, rfl, ?_, ?_, ?_⟩
      · simp [getOrderByIdDB, getOrderById]
      · intro e2 he
        simp [getOrderByIdDB, getOrderById]
      · intro o hnone
        exact absurd hnone (by simp)
  | none =>
      refine ⟨rfl, rfl, ?_, ?_, ?_⟩
      · cases hfind : db.find? (fun r => r.id == id) with
        | some o => simp [getOrderByIdDB, dbQueryById, hfind, getOrderById]
        | none => simp [getOrderByIdDB, dbQueryById, hfind, getOrderById]
      · intro e he
        exact absurd he (by simp)
      · intro o hnone hq
        cases hfind : db.find? (fun r => r.id == id) with
        | none =>
            rw [dbQueryById, hfind] at hq
            exact absurd hq (by simp)
        | some o2 =>
            rw [dbQueryById, hfind] at hq
            have ho : o2 = o := by
              cases hq
              rfl
            subst ho
            have hmem := List.mem_of_find?_eq_some hfind
            have hid := List.find?_some hfind
            simp only [beq_iff_eq] at hid
            exact ⟨by simp [getOrderByIdDB, dbQueryById, hfind, getOrderById],
              hmem, hid⟩

/-- Witness for `getOrderById_characterisation` on the one-row database
holding `sampleOrder`, queried with id 7 and a healthy storage layer. -/
theorem getOrderById_witness :
    (getOrderByIdDB [sampleOrder] 7 none).2.1 = [sampleOrder] ∧
    (getOrderByIdDB [sampleOrder] 7 none).2.2 = [] ∧
    ((getOrderByIdDB [sampleOrder] 7 none).1
        = ⟨404, Body.jsonError "Order not found"⟩ ↔
      (none : Option String) = none ∧
        dbQueryById [sampleOrder] 7 = ScanResult.noRows) ∧
    (∀ e, (none : Option String) = some e →
      (getOrderByIdDB [sampleOrder] 7 none).1
        = ⟨500, Body.jsonError "Failed to fetch order"⟩) ∧
    (∀ o, (none : Option String) = none →
      dbQueryById [sampleOrder] 7 = ScanResult.found o →
      (getOrderByIdDB [sampleOrder] 7 none).1 = ⟨200, Body.jsonOrder o⟩ ∧
        o ∈ [sampleOrder] ∧ o.id = 7) :=
  getOrderById_characterisation [sampleOrder] 7 none

/-- C7: after a successful create (no duplicate, fresh id, healthy storage),
looking the new id up returns 200 with an order whose id, customerName,
item and createdAt equal those of the 201 creation response. -/
theorem getOrder_after_create_round_trip (db : List OrderRow) (c i : String)
    (t newId : Nat)
    (h1 : dbQueryDuplicate db c i t = ScanResult.noRows)
    (h2 : dbQueryById db newId = ScanResult.noRows) :
    (createOrderDB db c i t newId none none).1.resp
      = ⟨201, Body.jsonOrder ⟨newId, c, i, t⟩⟩ ∧
    (getOrderByIdDB ((createOrderDB db c i t newId none none).2) newId none).1
      = ⟨200, Body.jsonOrder ⟨newId, c, i, t⟩⟩ := by
  have hf2 := dbQueryById_eq_noRows db newId h2
  have hdb1 : (createOrderDB db c i t newId none none).2
      = db ++ [⟨newId, c, i, t⟩] := by
    simp [createOrderDB, h1, createOrder, applyNewRow]
  constructor
  · simp [createOrderDB, h1, createOrder]
  · rw [hdb1]
    have hbyid : dbQueryById (db ++ [⟨newId, c, i, t⟩]) newId
        = ScanResult.found ⟨newId, c, i, t⟩ := by
      unfold dbQueryById
      rw [List.find?_append, hf2]
      simp
    simp [getOrderByIdDB, hbyid, getOrderById]

/-- Witness for `getOrder_after_create_round_trip` on the empty database
with c = "John Doe", i = "Book", t = 5, fresh id 7. -/
theorem getOrder_after_create_witness :
    dbQueryDuplicate [] "John Doe" "Book" 5 = ScanResult.noRows ∧
    dbQueryById [] 7 = ScanResult.noRows ∧
    ((createOrderDB [] "John Doe" "Book" 5 7 none none).1.resp
      = ⟨201, Body.jsonOrder ⟨7, "John Doe", "Book", 5⟩⟩ ∧
    (getOrderByIdDB ((createOrderDB [] "John Doe" "Book" 5 7 none none).2)
        7 none).1
      = ⟨200, Body.jsonOrder ⟨7, "John Doe", "Book", 5⟩⟩) :=
  ⟨rfl, rfl, getOrder_after_create_round_trip [] "John Doe" "Book" 5 7 rfl rfl⟩

/-- C8: whenever CreateOrder's response body carries an order — on the 200
duplicate path as well as the 201 created path — that order's customerName
and item are exactly the request's input strings, with no normalization. -/
theorem createOrder_echoes_input (db : List OrderRow) (c i : String)
    (t newId : Nat) (qf insF : Option String) (o : OrderRow)
    (h : (createOrderDB db c i t newId qf insF).1.resp.body
      = Body.jsonOrder o) :
    o.customerName = c ∧ o.item = i := by
  cases qf with
  | some e => simp [createOrderDB, createOrder] at h
  | none =>
      cases hfind : db.find? (matchesContent c i t) with
      | some r =>
          have hq : dbQueryDuplicate db c i t = ScanResult.found r := by
            unfold dbQueryDuplicate
            rw [hfind]
          have hp := List.find?_some hfind
          simp only [matchesContent, Bool.and_eq_true, beq_iff_eq] at hp
          simp only [createOrderDB, hq, createOrder] at h
          have ho : r = o := by
            cases h
            rfl
          subst ho
          exact ⟨hp.1.1, hp.1.2⟩
      | none =>
          have hq : dbQueryDuplicate db c i t = ScanResult.noRows := by
            unfold dbQueryDuplicate
            rw [hfind]
          cases insF with
          | some e => simp [createOrderDB, hq, createOrder] at h
          | none =>
              simp only [createOrderDB, hq, createOrder] at h
              have ho : (⟨newId, c, i, t⟩ : OrderRow) = o := by
                cases h
                rfl
              subst ho
              exact ⟨rfl, rfl⟩

/-- Witness for `createOrder_echoes_input` on the empty database: the 201
response carries the order ⟨7, "John Doe", "Book", 5⟩ whose fields echo the
input. -/
theorem createOrder_echoes_input_witness :
    (createOrderDB [] "John Doe" "Book" 5 7 none none).1.resp.body
      = Body.jsonOrder ⟨7, "John Doe", "Book", 5⟩ ∧
    ((⟨7, "John Doe", "Book", 5⟩ : OrderRow).customerName = "John Doe" ∧
      (⟨7, "John Doe", "Book", 5⟩ : OrderRow).item = "Book") :=
  ⟨rfl, createOrder_echoes_input [] "John Doe" "Book" 5 7 none none
    ⟨7, "John Doe", "Book", 5⟩ rfl⟩

end Orders
